import Mathlib

/-!
Verification of the storage-state expiration/refresh policy of the
`manabie-auto-testing` repository (`src/utils/storageHelper.ts`).

Shallow embedding conventions:
* wall-clock time `now` is epoch **milliseconds** (`Nat`), matching
  `Date.now()`; cookie `expires` fields are epoch **seconds** (`Int`),
  matching the Playwright storage-state format, so the source comparison
  `cookie.expires < Date.now() / 1000` is embedded exactly as
  `cookie.expires * 1000 < now` (exact over the rationals for integral
  `expires`);
* the JS real-valued age check `(now - mtime) / 3600000 > maxAgeHours`
  is embedded exactly as `(now : Int) - mtime > maxAgeHours * 3600000`;
* the filesystem is a map from environment name to an optional stored
  file (payload + mtime); `JSON.parse` failure and a `cookies` field
  that is missing or not an array are explicit payload constructors;
* the login collaborator (`LoginAction` followed by `waitForURL`) is an
  `Except` parameter: `.error` models a thrown error, `.ok snap` models
  a successful login whose browser context exports snapshot `snap`.
-/

/-- A persisted cookie, as in the Playwright storage-state JSON:
`{name, value, domain, path, expires}`; `expires ≤ 0` means session cookie. -/
structure Cookie where
  name : String
  value : String
  domain : String
  path : String
  expires : Int
deriving Repr, DecidableEq

/-- One `origins` entry: an origin with its localStorage name/value pairs. -/
structure OriginEntry where
  origin : String
  localStorage : List (String × String)
deriving Repr, DecidableEq

/-- The browser-context snapshot exported by `page.context().storageState()`. -/
structure StorageState where
  cookies : List Cookie
  origins : List OriginEntry
deriving Repr, DecidableEq

/-- The `cookies` field of a parsed storage-state file, as the JS code can
observe it: absent (`undefined`), present but not an array, or an array. -/
inductive CookiesField where
  | absent : CookiesField
  | notArray : CookiesField
  | array : List Cookie → CookiesField
deriving Repr, DecidableEq

/-- The raw persisted payload: either text that `JSON.parse` rejects, or a
parsed object with its `cookies` field and `origins` list. -/
inductive StoredPayload where
  | corrupt : StoredPayload
  | parsed : CookiesField → List OriginEntry → StoredPayload
deriving Repr, DecidableEq

/-- A stored file for one environment: its payload and its modification
time in epoch milliseconds (`fs.statSync(path).mtime.getTime()`). -/
structure FileRecord where
  payload : StoredPayload
  mtimeMillis : Nat
deriving Repr, DecidableEq

/-- The storage directory: environment name ↦ stored file, if any. -/
def StorageFS := String → Option FileRecord

/-- `StorageHelper.getStorageFilePath`: the deterministic path
`storage/storageState.<environment>.json` (directory creation is a
filesystem side effect with no bearing on the value). -/
def getStorageFilePath (environment : String) : String :=
  "storage/storageState." ++ environment ++ ".json"

/-- `StorageHelper.loadStorageState`: the file path if the file exists,
`null` otherwise. -/
def loadStorageState (fs : StorageFS) (environment : String) : Option String :=
  match fs environment with
  | some _ => some (getStorageFilePath environment)
  | none => none

/-- `StorageHelper.isStorageStateValid`: false when the file is missing;
otherwise parse — on parse failure the catch block returns false —
and test `Array.isArray(storageState.cookies) && storageState.cookies.length > 0`. -/
def isStorageStateValid (fs : StorageFS) (environment : String) : Bool :=
  match fs environment with
  | none => false
  | some r =>
    match r.payload with
    | .corrupt => false
    | .parsed (.array cs) _ => !cs.isEmpty
    | .parsed _ _ => false

/-- The per-cookie expiry test of `isStorageStateExpired`'s filter:
`cookie.expires > 0 && cookie.expires < currentTimeInSeconds`
with `currentTimeInSeconds = Date.now() / 1000`. -/
def cookieExpired (now : Nat) (c : Cookie) : Bool :=
  c.expires > 0 && c.expires * 1000 < (now : Int)

/-- The cookie-scan stage of `StorageHelper.isStorageStateExpired`
(lines 128–151): parse failure is caught and yields true; an absent
`cookies` field short-circuits (`storageState.cookies?.filter` is
`undefined`, so the `expiredCookies && length > 0` test fails) and the
function returns false; a non-array `cookies` makes `.filter` throw,
which the catch turns into true; an array yields true iff some cookie
passes `cookieExpired`. -/
def cookieScanExpired (payload : StoredPayload) (now : Nat) : Bool :=
  match payload with
  | .corrupt => true
  | .parsed .absent _ => false
  | .parsed .notArray _ => true
  | .parsed (.array cs) _ => cs.any (cookieExpired now)

/-- `StorageHelper.isStorageStateExpired`: true when the file is missing;
true when `(now - mtime) / 3600000 > maxAgeHours`; otherwise the cookie
scan decides. -/
def isStorageStateExpired (fs : StorageFS) (environment : String) (now : Nat)
    (maxAgeHours : Nat := 24) : Bool :=
  match fs environment with
  | none => true
  | some r =>
    if (now : Int) - (r.mtimeMillis : Int) > (maxAgeHours : Int) * 3600000 then
      true
    else
      cookieScanExpired r.payload now

/-- `StorageHelper.shouldRefreshStorageState`:
`!isStorageStateValid(environment) || isStorageStateExpired(environment)`
(the `verbose` flag only logs). -/
def shouldRefreshStorageState (fs : StorageFS) (environment : String)
    (now : Nat) : Bool :=
  !(isStorageStateValid fs environment) || isStorageStateExpired fs environment now 24

/-- One cookie rewrite of `StorageHelper.extendCookieExpiration`: a cookie
with `expires > 0 && expires < Date.now()/1000 + 3600` gets
`expires = Math.floor(Date.now()/1000) + 24*60*60`. -/
def extendCookie (now : Nat) (c : Cookie) : Cookie :=
  if c.expires > 0 && c.expires * 1000 < (now : Int) + 3600000 then
    { c with expires := ((now / 1000 : Nat) : Int) + 86400 }
  else
    c

/-- `StorageHelper.extendCookieExpiration` on the parsed snapshot that
`saveStorageState` just wrote: the file parses (it was just serialized)
and its `cookies` field is the snapshot's array, so the guarded
`forEach` maps `extendCookie` over it and the result is written back. -/
def extendCookieExpiration (snap : StorageState) (now : Nat) : StorageState :=
  { snap with cookies := snap.cookies.map (extendCookie now) }

/-- `StorageHelper.saveStorageState`: writes the exported browser snapshot
to the environment's path (overwriting any prior file), then
`extendCookieExpiration` rewrites short-lived cookies in place; the
file's modification time becomes the save time. -/
def saveStorageState (fs : StorageFS) (environment : String)
    (snap : StorageState) (now : Nat) : StorageFS :=
  fun e =>
    if e = environment then
      some { payload := .parsed (.array (extendCookieExpiration snap now).cookies)
                          (extendCookieExpiration snap now).origins,
             mtimeMillis := now }
    else fs e

/-- Outcome of one `checkAndRefreshStorage` call: the propagated result,
the resulting storage directory, and how many times the login
collaborator was invoked. -/
structure RefreshOutcome where
  result : Except String Unit
  fs : StorageFS
  loginCalls : Nat

/-- `StorageHelper.checkAndRefreshStorage`: if `shouldRefreshStorageState`
is false, return at once (no login, no write); otherwise invoke the
login collaborator — a thrown error propagates with nothing written —
and on success `saveStorageState` persists the exported snapshot. -/
def checkAndRefreshStorage (fs : StorageFS) (environment : String) (now : Nat)
    (login : Except String StorageState) : RefreshOutcome :=
  if shouldRefreshStorageState fs environment now then
    match login with
    | .error e => { result := .error e, fs := fs, loginCalls := 1 }
    | .ok snap =>
      { result := .ok (), fs := saveStorageState fs environment snap now,
        loginCalls := 1 }
  else
    { result := .ok (), fs := fs, loginCalls := 0 }

/-- Spec-side usability (§4.2 of the specification, for claim C3): a stored
file is usable iff its payload parses to a non-empty cookie array, it is
not aged out, and no cookie is expired. Written from the specification's
words to compare with the source-derived functions. -/
def specUsable (r : FileRecord) (now : Nat) : Bool :=
  (match r.payload with
   | .parsed (.array cs) _ =>
     !cs.isEmpty && !(cs.any (cookieExpired now))
   | _ => false)
  && !((now : Int) - (r.mtimeMillis : Int) > 86400000)

/-! ## Sample inputs used by the witnesses -/

/-- A long-lived authentication cookie. -/
def longCookie : Cookie :=
  { name := "sid", value := "v", domain := "example.my.salesforce.com",
    path := "/", expires := 4000000000 }

/-- A session cookie (`expires ≤ 0`). -/
def sessionCookie : Cookie :=
  { name := "BrowserId", value := "b", domain := "example.my.salesforce.com",
    path := "/", expires := -1 }

/-- A cookie already expired at `sampleNow`. -/
def expiredCookie : Cookie :=
  { name := "oid", value := "o", domain := "example.my.salesforce.com",
    path := "/", expires := 1000000000 }

/-- A concrete `now`: 2026-01-01-ish, in epoch milliseconds. -/
def sampleNow : Nat := 1767225600000

/-- A well-formed, fresh stored file (saved at `sampleNow`). -/
def goodRecord : FileRecord :=
  { payload := .parsed (.array [longCookie, sessionCookie]) [],
    mtimeMillis := sampleNow }

/-- A storage directory holding `goodRecord` for `dev-staging` only. -/
def goodFS : StorageFS :=
  fun e => if e = "dev-staging" then some goodRecord else none

/-- A storage directory holding a corrupt file for `dev-staging` only. -/
def corruptFS : StorageFS :=
  fun e => if e = "dev-staging" then
    some { payload := .corrupt, mtimeMillis := sampleNow } else none

/-- The empty storage directory. -/
def emptyFS : StorageFS := fun _ => none

/-! ## Claims -/

/-- C1: with the default 24-hour bound (`maxAgeSeconds = 86400`), a stored
record whose save time is exactly 86400 seconds before `now` passes the
age check — so it is usable whenever the cookie scan does not flag it —
while a record one second older is expired regardless of its payload:
the age comparison is strictly greater-than. -/
theorem c1_age_boundary_strict (fs : StorageFS) (environment : String)
    (r : FileRecord) (now : Nat)
    (hfs : fs environment = some r) :
    (now = r.mtimeMillis + 86400000 →
      cookieScanExpired r.payload now = false →
      isStorageStateExpired fs environment now 24 = false)
    ∧ (now = r.mtimeMillis + 86401000 →
      isStorageStateExpired fs environment now 24 = true) := by
  unfold isStorageStateExpired
  rw [hfs]
  dsimp only
  constructor
  · intro hnow hscan
    have hle : ¬((now : Int) - (r.mtimeMillis : Int) > ((24 : Nat) : Int) * 3600000) := by
      subst hnow; push_cast; omega
    rw [if_neg hle]
    exact hscan
  · intro hnow
    have hgt : (now : Int) - (r.mtimeMillis : Int) > ((24 : Nat) : Int) * 3600000 := by
      subst hnow; push_cast; omega
    rw [if_pos hgt]

/-- Witness for C1 at a concrete record. -/
theorem c1_age_boundary_strict_witness :
    isStorageStateExpired
      (fun e => if e = "dev-staging" then some goodRecord else none)
      "dev-staging" (sampleNow + 86400000) 24 = false
    ∧ isStorageStateExpired
      (fun e => if e = "dev-staging" then some goodRecord else none)
      "dev-staging" (sampleNow + 86401000) 24 = true := by
  constructor
  · exact (c1_age_boundary_strict _ "dev-staging" goodRecord (sampleNow + 86400000)
      (by decide)).1 (by decide) (by decide)
  · exact (c1_age_boundary_strict _ "dev-staging" goodRecord (sampleNow + 86401000)
      (by decide)).2 (by decide)

/-- C2: within the age bound, one expired cookie (`expires > 0` and in the
past) makes `isStorageStateExpired` return true, whatever the other
cookies are. -/
theorem c2_single_expired_cookie (fs : StorageFS) (environment : String)
    (r : FileRecord) (cs : List Cookie) (os : List OriginEntry) (now : Nat)
    (hfs : fs environment = some r)
    (hpayload : r.payload = .parsed (.array cs) os)
    (hage : (now : Int) - (r.mtimeMillis : Int) ≤ 24 * 3600000)
    (hcookie : ∃ c ∈ cs, cookieExpired now c = true) :
    isStorageStateExpired fs environment now 24 = true := by
  unfold isStorageStateExpired
  rw [hfs]
  dsimp only
  have hle : ¬((now : Int) - (r.mtimeMillis : Int) > ((24 : Nat) : Int) * 3600000) := by
    push_cast
    push_cast at hage
    omega
  rw [if_neg hle]
  rw [hpayload]
  unfold cookieScanExpired
  rw [List.any_eq_true]
  exact hcookie

/-- Witness for C2: a fresh record with 3 cookies, exactly one expired,
is reported expired. -/
theorem c2_single_expired_cookie_witness :
    isStorageStateExpired
      (fun e => if e = "dev-staging" then
        some { payload := .parsed (.array [longCookie, sessionCookie, expiredCookie]) [],
               mtimeMillis := sampleNow }
        else none)
      "dev-staging" sampleNow 24 = true :=
  c2_single_expired_cookie _ "dev-staging"
    { payload := .parsed (.array [longCookie, sessionCookie, expiredCookie]) [],
      mtimeMillis := sampleNow }
    [longCookie, sessionCookie, expiredCookie] [] sampleNow
    (by decide) (by decide) (by decide)
    ⟨expiredCookie, by decide, by decide⟩

/-- C3: `shouldRefreshStorageState` is true exactly when no record exists
for the environment or the stored record is not usable in the sense of
the specification (well-formed, within the age bound, and free of
expired cookies); a missing file always yields true. -/
theorem c3_shouldRefresh_iff_not_usable (fs : StorageFS) (environment : String)
    (now : Nat) :
    shouldRefreshStorageState fs environment now = true ↔
      (fs environment = none ∨
        ∃ r, fs environment = some r ∧ specUsable r now = false) := by
  unfold shouldRefreshStorageState isStorageStateValid isStorageStateExpired specUsable
  cases hfs : fs environment with
  | none => simp
  | some r =>
    simp only [Option.some.injEq, reduceCtorEq, false_or]
    constructor
    · intro h
      refine ⟨r, rfl, ?_⟩
      rcases hp : r.payload with _ | ⟨cf, os⟩
      · simp [hp]
      · cases cf with
        | absent => simp [hp]
        | notArray => simp [hp]
        | array cs =>
          rw [hp] at h
          simp only [hp]
          by_cases hage : (now : Int) - (r.mtimeMillis : Int) > ((24 : Nat) : Int) * 3600000
          · have hage' : ((now : Int) - (r.mtimeMillis : Int) > 86400000) := by
              push_cast at hage; omega
            simp [hage']
          · rw [if_neg hage] at h
            have hage' : ¬((now : Int) - (r.mtimeMillis : Int) > 86400000) := by
              push_cast at hage; omega
            unfold cookieScanExpired at h
            simp only [Bool.or_eq_true, Bool.not_eq_eq_eq_not, Bool.not_true] at h
            rcases h with h | h
            · simp [h]
            · simp [h, hage']
    · rintro ⟨r', hr', husable⟩
      subst hr'
      rcases hp : r.payload with _ | ⟨cf, os⟩
      · simp [hp]
      · cases cf with
        | absent => simp [hp]
        | notArray => simp [hp]
        | array cs =>
          rw [hp] at husable
          simp only [hp]
          by_cases hage : (now : Int) - (r.mtimeMillis : Int) > ((24 : Nat) : Int) * 3600000
          · rw [if_pos hage, Bool.or_true]
          · rw [if_neg hage]
            have hage' : ¬((now : Int) - (r.mtimeMillis : Int) > 86400000) := by
              push_cast at hage; omega
            dsimp only at husable
            simp only [hage', decide_False, Bool.not_false, Bool.and_true,
              Bool.and_eq_false_iff, Bool.not_eq_false'] at husable
            unfold cookieScanExpired
            dsimp only
            rcases husable with h | h
            · simp [h]
            · simp [h]

/-- Witness for C3: both directions at concrete inputs — the empty
directory and a usable record. -/
theorem c3_shouldRefresh_iff_not_usable_witness :
    shouldRefreshStorageState emptyFS "dev-staging" sampleNow = true
    ∧ shouldRefreshStorageState goodFS "dev-staging" sampleNow ≠ true := by
  constructor
  · exact (c3_shouldRefresh_iff_not_usable emptyFS "dev-staging" sampleNow).mpr
      (Or.inl rfl)
  · intro h
    rcases (c3_shouldRefresh_iff_not_usable goodFS "dev-staging" sampleNow).mp h with
      hnone | ⟨r, hr, hus⟩
    · exact absurd hnone (by decide)
    · have : r = goodRecord := by
        have : goodFS "dev-staging" = some goodRecord := by decide
        rw [this] at hr
        exact (Option.some.injEq _ _ ▸ hr).symm
      subst this
      exact absurd hus (by decide)

/-- C4: when `shouldRefreshStorageState` is false, `checkAndRefreshStorage`
returns at once: the login collaborator is invoked zero times, the
storage directory — hence the stored record — is unchanged, and no save
is performed. -/
theorem c4_idempotent_fast_path (fs : StorageFS) (environment : String)
    (now : Nat) (login : Except String StorageState)
    (h : shouldRefreshStorageState fs environment now = false) :
    checkAndRefreshStorage fs environment now login =
      { result := .ok (), fs := fs, loginCalls := 0 } := by
  unfold checkAndRefreshStorage
  rw [h]
  simp

/-- Witness for C4: a fresh, well-formed record is left alone even when the
login collaborator would fail. -/
theorem c4_idempotent_fast_path_witness :
    checkAndRefreshStorage goodFS "dev-staging" sampleNow (.error "login failure") =
      { result := .ok (), fs := goodFS, loginCalls := 0 } :=
  c4_idempotent_fast_path goodFS "dev-staging" sampleNow (.error "login failure")
    (by decide)

/-- C5: on the refresh path, a login collaborator that throws propagates its
error out of `checkAndRefreshStorage`, no write happens (the storage
directory is returned unchanged), and a subsequent load sees the prior
record. -/
theorem c5_failed_refresh_atomic (fs : StorageFS) (environment : String)
    (now : Nat) (e : String)
    (h : shouldRefreshStorageState fs environment now = true) :
    checkAndRefreshStorage fs environment now (.error e) =
      { result := .error e, fs := fs, loginCalls := 1 }
    ∧ loadStorageState (checkAndRefreshStorage fs environment now (.error e)).fs
        environment = loadStorageState fs environment := by
  unfold checkAndRefreshStorage
  rw [h]
  exact ⟨by simp, by simp⟩

/-- Witness for C5 on the empty storage directory. -/
theorem c5_failed_refresh_atomic_witness :
    checkAndRefreshStorage emptyFS "dev-staging" sampleNow (.error "login failure") =
      { result := .error "login failure", fs := emptyFS, loginCalls := 1 }
    ∧ loadStorageState
        (checkAndRefreshStorage emptyFS "dev-staging" sampleNow
          (.error "login failure")).fs "dev-staging" =
      loadStorageState emptyFS "dev-staging" :=
  c5_failed_refresh_atomic emptyFS "dev-staging" sampleNow "login failure" (by decide)

/-- C8: a stored record whose `cookies` field is an empty array, absent, or
not an array is invalid, and `shouldRefreshStorageState` is true for
every `now`, regardless of how recently the file was saved. -/
theorem c8_empty_cookies_never_usable (fs : StorageFS) (environment : String)
    (r : FileRecord) (cf : CookiesField) (os : List OriginEntry)
    (hfs : fs environment = some r)
    (hp : r.payload = .parsed cf os)
    (hcf : cf = .array [] ∨ cf = .absent ∨ cf = .notArray) :
    isStorageStateValid fs environment = false
    ∧ ∀ now, shouldRefreshStorageState fs environment now = true := by
  have hvalid : isStorageStateValid fs environment = false := by
    unfold isStorageStateValid
    rw [hfs]
    dsimp only
    rw [hp]
    rcases hcf with h | h | h <;> subst h <;> rfl
  refine ⟨hvalid, fun now => ?_⟩
  unfold shouldRefreshStorageState
  rw [hvalid]
  rfl

/-- Witness for C8: a record saved this instant with zero cookies. -/
theorem c8_empty_cookies_never_usable_witness :
    isStorageStateValid
      (fun e => if e = "dev-staging" then
        some { payload := .parsed (.array []) [], mtimeMillis := sampleNow }
        else none) "dev-staging" = false
    ∧ shouldRefreshStorageState
      (fun e => if e = "dev-staging" then
        some { payload := .parsed (.array []) [], mtimeMillis := sampleNow }
        else none) "dev-staging" sampleNow = true := by
  have h := c8_empty_cookies_never_usable
    (fun e => if e = "dev-staging" then
      some { payload := .parsed (.array []) [], mtimeMillis := sampleNow }
      else none) "dev-staging"
    { payload := .parsed (.array []) [], mtimeMillis := sampleNow }
    (.array []) [] (by decide) (by decide) (Or.inl rfl)
  exact ⟨h.1, h.2 sampleNow⟩

/-- C9: a well-formed record whose cookies are all session cookies
(`expires ≤ 0`) and whose age is within the bound is usable:
`isStorageStateExpired` and `shouldRefreshStorageState` are both false. -/
theorem c9_session_cookies_usable (fs : StorageFS) (environment : String)
    (r : FileRecord) (cs : List Cookie) (os : List OriginEntry) (now : Nat)
    (hfs : fs environment = some r)
    (hp : r.payload = .parsed (.array cs) os)
    (hne : cs ≠ [])
    (hsession : ∀ c ∈ cs, c.expires ≤ 0)
    (hage : (now : Int) - (r.mtimeMillis : Int) ≤ 86400000) :
    isStorageStateExpired fs environment now 24 = false
    ∧ shouldRefreshStorageState fs environment now = false := by
  have hexp : isStorageStateExpired fs environment now 24 = false := by
    unfold isStorageStateExpired
    rw [hfs]
    dsimp only
    have hle : ¬((now : Int) - (r.mtimeMillis : Int) > ((24 : Nat) : Int) * 3600000) := by
      push_cast; omega
    rw [if_neg hle, hp]
    unfold cookieScanExpired
    dsimp only
    rw [List.any_eq_false]
    intro c hc
    have hce := hsession c hc
    simp only [cookieExpired, Bool.and_eq_true, decide_eq_true_eq, not_and]
    intro h1
    omega
  have hvalid : isStorageStateValid fs environment = true := by
    unfold isStorageStateValid
    rw [hfs]
    dsimp only
    rw [hp]
    cases cs with
    | nil => exact absurd rfl hne
    | cons a l => rfl
  refine ⟨hexp, ?_⟩
  unfold shouldRefreshStorageState
  rw [hvalid, hexp]
  rfl

/-- Witness for C9: one session cookie, saved this instant. -/
theorem c9_session_cookies_usable_witness :
    isStorageStateExpired
      (fun e => if e = "dev-staging" then
        some { payload := .parsed (.array [sessionCookie]) [], mtimeMillis := sampleNow }
        else none) "dev-staging" sampleNow 24 = false
    ∧ shouldRefreshStorageState
      (fun e => if e = "dev-staging" then
        some { payload := .parsed (.array [sessionCookie]) [], mtimeMillis := sampleNow }
        else none) "dev-staging" sampleNow = false :=
  c9_session_cookies_usable
    (fun e => if e = "dev-staging" then
      some { payload := .parsed (.array [sessionCookie]) [], mtimeMillis := sampleNow }
      else none) "dev-staging"
    { payload := .parsed (.array [sessionCookie]) [], mtimeMillis := sampleNow }
    [sessionCookie] [] sampleNow (by decide) (by decide) (by decide)
    (by decide) (by decide)

/-- A cookie due to expire within the hour at `sampleNow`. -/
def shortCookie : Cookie :=
  { name := "sid", value := "s", domain := "example.my.salesforce.com",
    path := "/", expires := 1767225601 }

/-- A freshly exported browser snapshot containing `shortCookie`. -/
def freshSnapshot : StorageState := { cookies := [shortCookie], origins := [] }

/-- C6 counterexample: `saveStorageState` does not persist the exported
snapshot verbatim — for a snapshot holding a cookie that expires within
the hour, the stored record differs from the snapshot, because
`extendCookieExpiration` rewrites that cookie's `expires` field. -/
theorem c6_counterexample_save_alters_snapshot :
    (saveStorageState emptyFS "dev-staging" freshSnapshot sampleNow) "dev-staging" ≠
      some { payload := .parsed (.array freshSnapshot.cookies) freshSnapshot.origins,
             mtimeMillis := sampleNow } := by decide

/-- C6 amended: after a successful save the stored record is exactly the
exported snapshot with `extendCookie` mapped over its cookies — nothing
of any prior record survives (the result is independent of the previous
directory contents), the `origins` list is untouched, and each cookie
keeps its name, value, domain and path, its `expires` changing only when
it was short-lived (`0 < expires < now/1000 + 3600`), in which case it
becomes `now/1000 + 86400`. -/
theorem c6_refresh_overwrites_wholesale (fs : StorageFS) (environment : String)
    (snap : StorageState) (now : Nat) :
    (saveStorageState fs environment snap now) environment =
      some { payload := .parsed (.array (snap.cookies.map (extendCookie now)))
                          snap.origins,
             mtimeMillis := now }
    ∧ (∀ fs' : StorageFS,
        (saveStorageState fs' environment snap now) environment =
          (saveStorageState fs environment snap now) environment)
    ∧ (∀ c ∈ snap.cookies,
        (extendCookie now c).name = c.name ∧
        (extendCookie now c).value = c.value ∧
        (extendCookie now c).domain = c.domain ∧
        (extendCookie now c).path = c.path ∧
        ((extendCookie now c).expires = c.expires ∨
          (c.expires > 0 ∧ c.expires * 1000 < (now : Int) + 3600000 ∧
            (extendCookie now c).expires = ((now / 1000 : Nat) : Int) + 86400))) := by
  refine ⟨?_, ?_, ?_⟩
  · simp [saveStorageState, extendCookieExpiration]
  · intro fs'
    simp [saveStorageState]
  · intro c hc
    unfold extendCookie
    by_cases h : (c.expires > 0 && c.expires * 1000 < (now : Int) + 3600000) = true
    · rw [if_pos h]
      simp only [Bool.and_eq_true, decide_eq_true_eq] at h
      exact ⟨rfl, rfl, rfl, rfl, Or.inr ⟨h.1, h.2, rfl⟩⟩
    · rw [if_neg h]
      exact ⟨rfl, rfl, rfl, rfl, Or.inl rfl⟩

/-- Witness for the C6 amendment at a concrete snapshot. -/
theorem c6_refresh_overwrites_wholesale_witness :
    (saveStorageState emptyFS "dev-staging" freshSnapshot sampleNow) "dev-staging" =
      some { payload := .parsed
               (.array (freshSnapshot.cookies.map (extendCookie sampleNow)))
               freshSnapshot.origins,
             mtimeMillis := sampleNow } :=
  (c6_refresh_overwrites_wholesale emptyFS "dev-staging" freshSnapshot sampleNow).1

/-- C7 counterexample: a corrupt persisted payload raises nothing —
`loadStorageState` returns the file path as usual, the validity check
returns false, `shouldRefreshStorageState` returns true, and the
orchestrator silently refreshes it (result `.ok`): the record is
classified as refresh-needed, with no error surfaced to the caller. -/
theorem c7_counterexample_corrupt_not_surfaced :
    loadStorageState corruptFS "dev-staging" =
      some "storage/storageState.dev-staging.json"
    ∧ isStorageStateValid corruptFS "dev-staging" = false
    ∧ shouldRefreshStorageState corruptFS "dev-staging" sampleNow = true
    ∧ (checkAndRefreshStorage corruptFS "dev-staging" sampleNow
        (.ok freshSnapshot)).result = .ok () := by
  refine ⟨by decide, by decide, by decide, ?_⟩
  rfl

/-- C7 amended: a persisted payload that cannot be parsed is never surfaced
as an error; every reader treats it as data to refresh: the load still
hands back the file path, `isStorageStateValid` returns false,
`isStorageStateExpired` returns true (its catch block), and
`shouldRefreshStorageState` returns true. -/
theorem c7_corrupt_treated_as_refresh_needed (fs : StorageFS)
    (environment : String) (r : FileRecord) (now : Nat)
    (hfs : fs environment = some r)
    (hp : r.payload = .corrupt) :
    loadStorageState fs environment = some (getStorageFilePath environment)
    ∧ isStorageStateValid fs environment = false
    ∧ isStorageStateExpired fs environment now 24 = true
    ∧ shouldRefreshStorageState fs environment now = true := by
  have hvalid : isStorageStateValid fs environment = false := by
    unfold isStorageStateValid
    rw [hfs]
    dsimp only
    rw [hp]
  refine ⟨?_, hvalid, ?_, ?_⟩
  · unfold loadStorageState
    rw [hfs]
  · unfold isStorageStateExpired
    rw [hfs]
    dsimp only
    by_cases hage : (now : Int) - (r.mtimeMillis : Int) > ((24 : Nat) : Int) * 3600000
    · rw [if_pos hage]
    · rw [if_neg hage, hp]
      rfl
  · unfold shouldRefreshStorageState
    rw [hvalid]
    rfl

/-- Witness for the C7 amendment on a concrete corrupt file. -/
theorem c7_corrupt_treated_as_refresh_needed_witness :
    loadStorageState corruptFS "dev-staging" =
      some (getStorageFilePath "dev-staging")
    ∧ isStorageStateValid corruptFS "dev-staging" = false
    ∧ isStorageStateExpired corruptFS "dev-staging" sampleNow 24 = true
    ∧ shouldRefreshStorageState corruptFS "dev-staging" sampleNow = true :=
  c7_corrupt_treated_as_refresh_needed corruptFS "dev-staging"
    { payload := .corrupt, mtimeMillis := sampleNow } sampleNow
    (by decide) (by decide)

/-- C10: immediately after a save at time `now`, every persisted cookie
with `expires > 0` satisfies `expires ≥ now/1000 + 3600`; every cookie
that was due to expire within the hour has been rewritten to
`now/1000 + 86400`; and the expired-cookie scan run right after the save
reports nothing, so `isStorageStateExpired` is false. -/
theorem c10_post_save_no_expired_cookie (fs : StorageFS) (environment : String)
    (snap : StorageState) (now : Nat) :
    (∀ c ∈ (extendCookieExpiration snap now).cookies,
        c.expires > 0 → c.expires ≥ ((now / 1000 : Nat) : Int) + 3600)
    ∧ (∀ c ∈ snap.cookies, c.expires > 0 →
        c.expires * 1000 < (now : Int) + 3600000 →
        (extendCookie now c).expires = ((now / 1000 : Nat) : Int) + 86400)
    ∧ isStorageStateExpired (saveStorageState fs environment snap now)
        environment now 24 = false := by
  have key : ∀ c ∈ snap.cookies, (extendCookie now c).expires > 0 →
      (extendCookie now c).expires ≥ ((now / 1000 : Nat) : Int) + 3600 := by
    intro c _
    unfold extendCookie
    by_cases h : (c.expires > 0 && c.expires * 1000 < (now : Int) + 3600000) = true
    · rw [if_pos h]
      intro _
      dsimp only
      omega
    · rw [if_neg h]
      intro hpos
      simp only [Bool.and_eq_true, decide_eq_true_eq, not_and, not_lt] at h
      have h2 := h hpos
      have hdiv : 1000 * (now / 1000) ≤ now := by omega
      omega
  refine ⟨?_, ?_, ?_⟩
  · intro c' hc'
    unfold extendCookieExpiration at hc'
    dsimp only at hc'
    obtain ⟨c, hc, rfl⟩ := List.mem_map.mp hc'
    exact key c hc
  · intro c _ hpos hshort
    unfold extendCookie
    rw [if_pos (by simp only [Bool.and_eq_true, decide_eq_true_eq]
                   exact ⟨hpos, hshort⟩)]
  · unfold isStorageStateExpired saveStorageState
    rw [if_pos rfl]
    dsimp only
    have hle : ¬((now : Int) - (now : Int) > ((24 : Nat) : Int) * 3600000) := by
      push_cast; omega
    rw [if_neg hle]
    unfold cookieScanExpired extendCookieExpiration
    dsimp only
    rw [List.any_eq_false]
    intro c' hc'
    obtain ⟨c, hc, rfl⟩ := List.mem_map.mp hc'
    simp only [cookieExpired, Bool.and_eq_true, decide_eq_true_eq, not_and, not_lt]
    intro hpos
    have hge := key c hc hpos
    have hdiv : 1000 * (now / 1000) ≤ now := by omega
    omega

/-- Witness for C10: the scan right after saving `freshSnapshot` (whose one
cookie was minutes from expiring) reports no expired cookie. -/
theorem c10_post_save_no_expired_cookie_witness :
    isStorageStateExpired (saveStorageState emptyFS "dev-staging" freshSnapshot sampleNow)
      "dev-staging" sampleNow 24 = false :=
  (c10_post_save_no_expired_cookie emptyFS "dev-staging" freshSnapshot sampleNow).2.2
